import Mathlib

/-!
Shallow embedding of the tab-and-conversation controller implemented in
`src/components/InteractiveCard.tsx`. Pure helpers (`decode`,
`decodeAudioData`) are modelled as Lean functions on byte lists; the React
state hooks become a record `CardState`, and each event handler becomes a
state transformer. The asynchronous external collaborators (chat send,
speech synthesis, speech recognition) are modelled by explicit outcome
parameters, and the order in which `handleSendMessage` performs its state
updates is modelled as a trace of atomic `Event`s folded over the state.
-/

namespace InteractiveCard

/-- Message roles, from the `ChatMessage` interface: `'user' | 'model' | 'system'`. -/
inductive Role
  | user
  | model
  | system
deriving DecidableEq

/-- A transcript turn, from the `ChatMessage` interface. -/
structure ChatMessage where
  role : Role
  content : String
deriving DecidableEq

/-- The component's state hooks and refs:
`activeTab`, `chatHistory`, `userInput`, `isLoading`, `isListening`,
`isSpeaking` are the `useState` hooks; `chatReady` models `chat !== null`
(the `setChat` hook); `refsReady` models `aiRef.current !== null &&
audioContextRef.current !== null`, the guard of `playAudioResponse`. -/
structure CardState where
  activeTab : String
  chatReady : Bool
  refsReady : Bool
  chatHistory : List ChatMessage
  userInput : String
  isLoading : Bool
  isListening : Bool
  isSpeaking : Bool
deriving DecidableEq

/-- The state at first render: `useState('implications')`, `useState<Chat | null>(null)`,
`useState<ChatMessage[]>([])`, `useState('')`, and three `useState(false)` flags. -/
def initialState : CardState :=
  { activeTab := "implications"
    chatReady := false
    refsReady := false
    chatHistory := []
    userInput := ""
    isLoading := false
    isListening := false
    isSpeaking := false }

/-- JavaScript `String.prototype.trim`: strip leading and trailing whitespace. -/
def jsTrim (s : String) : String :=
  String.mk (((s.toList.dropWhile Char.isWhitespace).reverse.dropWhile Char.isWhitespace).reverse)

/-- The greeting turn installed by the successful branch of the `init` effect. -/
def greetingMessage : ChatMessage :=
  { role := Role.model
    content := "¡Hola! Soy tu asistente de investigación, ejercita tu pensamiento cientifico. Esta es tu oportunidad de profundizar hacia donde la curiosidad te lleve. ¡Sorpréndete de cuánto puedes aprender y descubrir! ¿Qué te gustaría saber?" }

/-- The error turn installed by the `catch` branch of the `init` effect. -/
def initErrorMessage : ChatMessage :=
  { role := Role.system
    content := "No se pudo inicializar el asistente de IA. Verifica la configuración." }

/-- The fixed user-facing message appended when `chat.sendMessage` throws. -/
def sendErrorContent : String :=
  "Lo siento, ocurrió un error al procesar tu solicitud."

/-- Successful completion of the mount-time `init` effect: the chat session is
created (`setChat`), the transcript is seeded with the greeting, and the AI
handle and audio context refs are populated. -/
def initSuccess (s : CardState) : CardState :=
  { s with chatReady := true, refsReady := true, chatHistory := [greetingMessage] }

/-- Failing completion of the `init` effect: the `catch` branch replaces the
transcript with the single initialization-error turn. (In the common failure
path construction of the AI client throws before `setChat`, so the chat and
refs stay unset.) -/
def initFailure (s : CardState) : CardState :=
  { s with chatHistory := [initErrorMessage] }

/-- Outcome of the external `chat.sendMessage` call: resolves with reply text
or rejects. -/
inductive ChatSendResult
  | success (text : String)
  | failure
deriving DecidableEq

/-- Outcome of the external TTS `generateContent` call inside
`playAudioResponse`: a base64 audio payload, a response with no
`inlineData.data`, or a thrown error. -/
inductive SynthOutcome
  | audio (payload : String)
  | empty
  | failure
deriving DecidableEq

/-- One atomic state update or external invocation performed by the handlers,
in program order. `invokeSend`, `invokeSynth` and `startPlayback` mark the
external calls (`chat.sendMessage`, `models.generateContent`,
`source.start`) and do not change the React state. -/
inductive Event
  | appendTurn (m : ChatMessage)
  | setInput (v : String)
  | setLoading (b : Bool)
  | setSpeaking (b : Bool)
  | setListening (b : Bool)
  | invokeSend (message : String)
  | invokeSynth (text : String)
  | startPlayback (payload : String)
deriving DecidableEq

/-- Effect of one event on the state. `setChatHistory(prev => [...prev, m])`
appends; the setters overwrite; external invocations leave the state alone. -/
def applyEvent (s : CardState) : Event → CardState
  | Event.appendTurn m => { s with chatHistory := s.chatHistory ++ [m] }
  | Event.setInput v => { s with userInput := v }
  | Event.setLoading b => { s with isLoading := b }
  | Event.setSpeaking b => { s with isSpeaking := b }
  | Event.setListening b => { s with isListening := b }
  | Event.invokeSend _ => s
  | Event.invokeSynth _ => s
  | Event.startPlayback _ => s

/-- Run a trace of events left to right. -/
def runEvents (s : CardState) (es : List Event) : CardState :=
  es.foldl applyEvent s

/-- Trace of `playAudioResponse(text)`: bail out if the AI handle or the audio
context is missing; otherwise `setIsSpeaking(true)`, call `generateContent`,
then either start playback of the decoded payload (leaving `isSpeaking` true
until the platform's `onended` fires), or — on a missing payload or a thrown
error — `setIsSpeaking(false)`. The guard reads only the refs, which no event
changes, so it is evaluated on the state at the start of the send. -/
def playAudioResponseTrace (text : String) (synth : SynthOutcome) (s : CardState) : List Event :=
  if s.refsReady = false then []
  else
    Event.setSpeaking true :: Event.invokeSynth text ::
      (match synth with
       | SynthOutcome.audio payload => [Event.startPlayback payload]
       | SynthOutcome.empty => [Event.setSpeaking false]
       | SynthOutcome.failure => [Event.setSpeaking false])

/-- Trace of `handleSendMessage`: rejected (empty trace) when the trimmed
input is empty, a reply is pending, the chat session is missing, or audio is
playing. Otherwise: append the user turn, clear the input, set loading, call
`chat.sendMessage`; on success append the model turn and run
`playAudioResponse`; on rejection append the fixed system-error turn; the
`finally` block clears the loading flag last. -/
def handleSendMessageTrace (send : ChatSendResult) (synth : SynthOutcome) (s : CardState) : List Event :=
  if jsTrim s.userInput = "" ∨ s.isLoading = true ∨ s.chatReady = false ∨ s.isSpeaking = true then
    []
  else
    [Event.appendTurn { role := Role.user, content := s.userInput },
     Event.setInput (""),
     Event.setLoading true,
     Event.invokeSend s.userInput] ++
    (match send with
     | ChatSendResult.success t =>
         Event.appendTurn { role := Role.model, content := t } :: playAudioResponseTrace t synth s
     | ChatSendResult.failure =>
         [Event.appendTurn { role := Role.system, content := sendErrorContent }]) ++
    [Event.setLoading false]

/-- Net effect of `handleSendMessage` on the state. -/
def handleSendMessage (send : ChatSendResult) (synth : SynthOutcome) (s : CardState) : CardState :=
  runEvents s (handleSendMessageTrace send synth s)

/-- `onClick={() => setActiveTab(tab.id)}` on a tab button. -/
def selectTab (id : String) (s : CardState) : CardState :=
  { s with activeTab := id }

/-- The ids of the static `tabsData` array, in order. -/
def tabIds : List String :=
  ["implications", "thermodynamics", "chat"]

/-- Whether the content pane of tab `id` is rendered: each pane is guarded by
`activeTab === id` in the returned markup. -/
def paneRendered (s : CardState) (id : String) : Bool :=
  s.activeTab == id

/-- The tabs whose content pane is rendered. -/
def renderedTabs (s : CardState) : List String :=
  tabIds.filter (fun id => paneRendered s id)

/-- `handleMicClick`: no-op without a recognition handle; while listening it
only calls `recognition.stop()` (the state change happens in the platform's
`onend` callback); otherwise clear the input, start capture, set listening. -/
def handleMicClick (recognitionAvailable : Bool) (s : CardState) : CardState :=
  if recognitionAvailable = false then s
  else if s.isListening = true then s
  else { s with userInput := "", isListening := true }

/-- `recognition.onresult`: concatenate the finalized transcript segments of
the event (interim results are skipped) and, when nonempty, append them to the
pending input via the functional update `setUserInput(prev => prev + t)`. -/
def recognitionOnResult (finalSegments : List String) (s : CardState) : CardState :=
  if String.join finalSegments = "" then s
  else { s with userInput := s.userInput ++ String.join finalSegments }

/-- `recognition.onend`: clear the listening flag, then request a form submit
if `userInput.trim()` is truthy. The handler is a closure installed once by
the mount-time `init` effect, so the `userInput` it reads is the binding of
the render in which the effect ran — not the current state. `capturedInput` is
that captured value; the returned `Bool` records whether
`formRef.current?.requestSubmit()` was called. -/
def recognitionOnEnd (capturedInput : String) (s : CardState) : CardState × Bool :=
  ({ s with isListening := false },
   if jsTrim capturedInput = "" then false else true)

/-- The `userInput` value captured by the closure that `init` installs as
`recognition.onend`: the effect has an empty dependency array and runs once
after the first render, where `userInput` is the initial empty string. -/
def installedCapturedInput : String :=
  initialState.userInput

/-- `source.onended`: playback completion clears the speaking flag. -/
def playbackEnded (s : CardState) : CardState :=
  { s with isSpeaking := false }

/-- `onChange` of the text input: `setUserInput(e.target.value)`. -/
def typeInput (v : String) (s : CardState) : CardState :=
  { s with userInput := v }

/-- One user-interface or platform event step between stable states. -/
inductive Step : CardState → CardState → Prop
  | chatSend (send : ChatSendResult) (synth : SynthOutcome) (s : CardState) :
      Step s (handleSendMessage send synth s)
  | tabClick (id : String) (s : CardState) (hid : id ∈ tabIds) :
      Step s (selectTab id s)
  | micClick (avail : Bool) (s : CardState) :
      Step s (handleMicClick avail s)
  | speechResult (segs : List String) (s : CardState) :
      Step s (recognitionOnResult segs s)
  | speechEnd (captured : String) (s : CardState) :
      Step s (recognitionOnEnd captured s).1
  | playbackDone (s : CardState) :
      Step s (playbackEnded s)
  | typing (v : String) (s : CardState) :
      Step s (typeInput v s)

/-- States reachable once the mount-time `init` effect has completed, in
either its success or its failure branch. -/
inductive Reachable : CardState → Prop
  | initOk : Reachable (initSuccess initialState)
  | initFail : Reachable (initFailure initialState)
  | step {s s' : CardState} : Reachable s → Step s s' → Reachable s'

/-- The standard base64 alphabet, in index order. -/
def b64Alphabet : List Char :=
  ['A', 'B', 'C', 'D', 'E', 'F', 'G', 'H', 'I', 'J', 'K', 'L', 'M',
   'N', 'O', 'P', 'Q', 'R', 'S', 'T', 'U', 'V', 'W', 'X', 'Y', 'Z',
   'a', 'b', 'c', 'd', 'e', 'f', 'g', 'h', 'i', 'j', 'k', 'l', 'm',
   'n', 'o', 'p', 'q', 'r', 's', 't', 'u', 'v', 'w', 'x', 'y', 'z',
   '0', '1', '2', '3', '4', '5', '6', '7', '8', '9', '+', '/']

/-- Index of a character in the base64 alphabet, `none` for a non-alphabet
character (on which `atob` throws). -/
def b64Index (c : Char) : Option Nat :=
  b64Alphabet.findIdx? (fun x => x == c)

/-- The alphabet character of a 6-bit value. -/
def b64Char (v : Nat) : Char :=
  b64Alphabet.getD v 'A'

/-- Base64 decoding of a character list, as the browser `atob` performs it on
canonical (whitespace-free) input: each 4-character group yields 3 bytes; a
final group of 2 or 3 characters — padded with `=` or unpadded — yields 1 or 2
bytes; anything else (a lone trailing character, or padding not at the end) is
an error, modelled as `none`. -/
def b64DecodeChars : List Char → Option (List Nat)
  | [] => some []
  | c1 :: c2 :: c3 :: c4 :: rest =>
      if c3 = '=' ∧ c4 = '=' ∧ rest = [] then
        match b64Index c1, b64Index c2 with
        | some a, some b => some [a * 4 + b / 16]
        | _, _ => none
      else if c4 = '=' ∧ rest = [] then
        match b64Index c1, b64Index c2, b64Index c3 with
        | some a, some b, some c => some [a * 4 + b / 16, b % 16 * 16 + c / 4]
        | _, _, _ => none
      else
        match b64Index c1, b64Index c2, b64Index c3, b64Index c4, b64DecodeChars rest with
        | some a, some b, some c, some d, some tail =>
            some ((a * 4 + b / 16) :: (b % 16 * 16 + c / 4) :: (c % 4 * 64 + d) :: tail)
        | _, _, _, _, _ => none
  | [c1, c2] =>
      match b64Index c1, b64Index c2 with
      | some a, some b => some [a * 4 + b / 16]
      | _, _ => none
  | [c1, c2, c3] =>
      match b64Index c1, b64Index c2, b64Index c3 with
      | some a, some b, some c => some [a * 4 + b / 16, b % 16 * 16 + c / 4]
      | _, _, _ => none
  | [_] => none

/-- The source's `decode(base64)`: `atob` produces a binary string whose
`charCodeAt(i)` values are the bytes written into the `Uint8Array`; the
composite is base64 text to byte values. `none` models the exception `atob`
throws on malformed input. -/
def decode (base64 : String) : Option (List Nat) :=
  b64DecodeChars base64.toList

/-- Reference base64 encoder, used to quantify over base64 encodings of a
given byte sequence: 3 bytes become 4 alphabet characters; a final 1 or 2
bytes become 2 or 3 characters plus `=` padding. -/
def base64Encode : List Nat → List Char
  | x :: y :: z :: rest =>
      b64Char (x / 4) :: b64Char (x % 4 * 16 + y / 16) ::
        b64Char (y % 16 * 4 + z / 64) :: b64Char (z % 64) :: base64Encode rest
  | [x, y] =>
      [b64Char (x / 4), b64Char (x % 4 * 16 + y / 16), b64Char (y % 16 * 4), '=']
  | [x] =>
      [b64Char (x / 4), b64Char (x % 4 * 16), '=', '=']
  | [] => []

/-- Interpretation of two consecutive bytes as one signed 16-bit
little-endian value, as `new Int16Array(data.buffer)` reads them. -/
def toInt16 (lo hi : Nat) : Int :=
  if lo + 256 * hi < 32768 then ((lo + 256 * hi : Nat) : Int)
  else ((lo + 256 * hi : Nat) : Int) - 65536

/-- The `Int16Array` view of the byte buffer: consecutive byte pairs, little
endian. (The view requires an even byte length; a violation throws, which the
caller models as `none`.) -/
def bytesToInt16 : List Nat → List Int
  | lo :: hi :: rest => toInt16 lo hi :: bytesToInt16 rest
  | _ => []

/-- The source's `decodeAudioData(data, ctx, sampleRate, numChannels)`,
restricted to the sample values it writes: view the bytes as 16-bit values,
compute `frameCount = dataInt16.length / numChannels`, and fill each
channel's data with `dataInt16[i * numChannels + channel] / 32768.0`.
Samples are modelled in `ℚ`; for 16-bit values and a power-of-two divisor the
JavaScript float division is exact, so this loses nothing. `none` models the
exception thrown when the byte length is odd. The sample rate and the audio
context only label the produced buffer and are omitted. The component's only
call passes `numChannels = 1`, where the integer `frameCount` coincides with
the JavaScript division. -/
def decodeAudioData (data : List Nat) (numChannels : Nat) : Option (List (List ℚ)) :=
  if data.length % 2 = 0 then
    some ((List.range numChannels).map (fun channel =>
      (List.range ((bytesToInt16 data).length / numChannels)).map (fun i =>
        (((bytesToInt16 data).getD (i * numChannels + channel) 0 : Int) : ℚ) / 32768)))
  else none

/-- Reference de-interleave following the spec's words: sample `i` of a
single-channel 16-bit little-endian PCM payload is the `i`-th signed 16-bit
value divided by 32768. -/
def referenceSamples (bytes : List Nat) : List ℚ :=
  (List.range (bytes.length / 2)).map (fun i =>
    ((toInt16 (bytes.getD (2 * i) 0) (bytes.getD (2 * i + 1) 0) : Int) : ℚ) / 32768)

/-- Whether an event is the external chat-send invocation. -/
def Event.isInvokeSend : Event → Bool
  | Event.invokeSend _ => true
  | _ => false

/-- Whether an event starts audio playback. -/
def Event.isStartPlayback : Event → Bool
  | Event.startPlayback _ => true
  | _ => false

/-- C1: an accepted submission whose chat-send succeeds with reply text `t`
appends exactly the user turn with the submitted text followed by exactly the
assistant turn with content `t`, clears the pending input, and ends with
`isLoading` (the waiting-for-reply flag) false — for every synthesis outcome. -/
theorem sendMessage_success_spec (s : CardState) (t : String) (synth : SynthOutcome)
    (h1 : ¬ jsTrim s.userInput = "") (h2 : s.isLoading = false) (h3 : s.chatReady = true)
    (h4 : s.isSpeaking = false) :
    (handleSendMessage (ChatSendResult.success t) synth s).chatHistory =
      s.chatHistory ++
        [{ role := Role.user, content := s.userInput }, { role := Role.model, content := t }] ∧
    (handleSendMessage (ChatSendResult.success t) synth s).userInput = "" ∧
    (handleSendMessage (ChatSendResult.success t) synth s).isLoading = false := by
  unfold handleSendMessage handleSendMessageTrace playAudioResponseTrace
  rw [if_neg (by simp [h1, h2, h3, h4])]
  cases hr : s.refsReady <;> cases synth <;>
    simp [hr, runEvents, applyEvent]

/-- Witness for C1 at a concrete post-initialization state with input `hola`. -/
theorem sendMessage_success_spec_witness :
    (handleSendMessage (ChatSendResult.success ("ok")) SynthOutcome.empty
        (typeInput ("hola") (initSuccess initialState))).chatHistory =
      (typeInput ("hola") (initSuccess initialState)).chatHistory ++
        [{ role := Role.user, content := (typeInput ("hola") (initSuccess initialState)).userInput },
         { role := Role.model, content := "ok" }] ∧
    (handleSendMessage (ChatSendResult.success ("ok")) SynthOutcome.empty
        (typeInput ("hola") (initSuccess initialState))).userInput = "" ∧
    (handleSendMessage (ChatSendResult.success ("ok")) SynthOutcome.empty
        (typeInput ("hola") (initSuccess initialState))).isLoading = false :=
  sendMessage_success_spec (typeInput ("hola") (initSuccess initialState)) ("ok")
    SynthOutcome.empty (by decide) rfl rfl rfl

/-- C2: an accepted submission whose chat-send fails appends exactly the user
turn followed by exactly one system-error turn with the fixed message, ends
with `isLoading` false, and invokes the external chat-send exactly once (no
retry). -/
theorem sendMessage_failure_spec (s : CardState) (synth : SynthOutcome)
    (h1 : ¬ jsTrim s.userInput = "") (h2 : s.isLoading = false) (h3 : s.chatReady = true)
    (h4 : s.isSpeaking = false) :
    (handleSendMessage ChatSendResult.failure synth s).chatHistory =
      s.chatHistory ++
        [{ role := Role.user, content := s.userInput },
         { role := Role.system, content := sendErrorContent }] ∧
    (handleSendMessage ChatSendResult.failure synth s).isLoading = false ∧
    (handleSendMessageTrace ChatSendResult.failure synth s).countP Event.isInvokeSend = 1 := by
  unfold handleSendMessage handleSendMessageTrace
  rw [if_neg (by simp [h1, h2, h3, h4])]
  simp [runEvents, applyEvent, Event.isInvokeSend, List.countP_cons]

/-- Witness for C2 at a concrete post-initialization state with input `hola`. -/
theorem sendMessage_failure_spec_witness :
    (handleSendMessage ChatSendResult.failure SynthOutcome.empty
        (typeInput ("hola") (initSuccess initialState))).chatHistory =
      (typeInput ("hola") (initSuccess initialState)).chatHistory ++
        [{ role := Role.user, content := (typeInput ("hola") (initSuccess initialState)).userInput },
         { role := Role.system, content := sendErrorContent }] ∧
    (handleSendMessage ChatSendResult.failure SynthOutcome.empty
        (typeInput ("hola") (initSuccess initialState))).isLoading = false ∧
    (handleSendMessageTrace ChatSendResult.failure SynthOutcome.empty
        (typeInput ("hola") (initSuccess initialState))).countP Event.isInvokeSend = 1 :=
  sendMessage_failure_spec (typeInput ("hola") (initSuccess initialState))
    SynthOutcome.empty (by decide) rfl rfl rfl

/-- C3: a submission with empty or whitespace-only input, or made while a
reply is pending, or made while audio is playing, leaves the state unchanged:
no turn is appended and no flag moves, whatever the external outcomes would
have been. -/
theorem sendMessage_rejected_noop (send : ChatSendResult) (synth : SynthOutcome)
    (s : CardState)
    (h : jsTrim s.userInput = "" ∨ s.isLoading = true ∨ s.isSpeaking = true) :
    handleSendMessage send synth s = s := by
  unfold handleSendMessage handleSendMessageTrace
  rw [if_pos (by tauto)]
  rfl

/-- Witness for C3: a whitespace-only submission on a ready state is a no-op. -/
theorem sendMessage_rejected_noop_witness :
    handleSendMessage (ChatSendResult.success ("ok")) SynthOutcome.empty
        (typeInput ("   ") (initSuccess initialState)) =
      typeInput ("   ") (initSuccess initialState) :=
  sendMessage_rejected_noop (ChatSendResult.success ("ok")) SynthOutcome.empty
    (typeInput ("   ") (initSuccess initialState)) (Or.inl (by decide))

/-- C10: a submission made while the chat session is not initialized
(`chat === null`) is silently rejected: the state, including the transcript
and the waiting flag, is unchanged. -/
theorem sendMessage_uninitialized_noop (send : ChatSendResult) (synth : SynthOutcome)
    (s : CardState) (h : s.chatReady = false) :
    handleSendMessage send synth s = s := by
  unfold handleSendMessage handleSendMessageTrace
  rw [if_pos (by tauto)]
  rfl

/-- Witness for C10: a nonempty submission before initialization is a no-op. -/
theorem sendMessage_uninitialized_noop_witness :
    handleSendMessage (ChatSendResult.success ("ok")) SynthOutcome.empty
        (typeInput ("hola") initialState) =
      typeInput ("hola") initialState :=
  sendMessage_uninitialized_noop (ChatSendResult.success ("ok")) SynthOutcome.empty
    (typeInput ("hola") initialState) rfl

/-- C4: evaluation of the capture session the claim describes. After a mic
click, finalized segments `hola ` then `mundo`, the pending input is
`hola mundo`; the platform's end-of-capture signal clears the listening flag
but does not request a submit, because the installed `onend` closure tests the
`userInput` value captured at mount time — the empty string — although the
live pending input is nonempty. -/
theorem speechEnd_staleInput_eval :
    (recognitionOnResult [("mundo")]
        (recognitionOnResult [("hola ")]
          (handleMicClick true (initSuccess initialState)))).userInput = "hola mundo" ∧
    (recognitionOnEnd installedCapturedInput
        (recognitionOnResult [("mundo")]
          (recognitionOnResult [("hola ")]
            (handleMicClick true (initSuccess initialState))))).1.isListening = false ∧
    (recognitionOnEnd installedCapturedInput
        (recognitionOnResult [("mundo")]
          (recognitionOnResult [("hola ")]
            (handleMicClick true (initSuccess initialState))))).1.userInput = "hola mundo" ∧
    ¬ jsTrim ("hola mundo") = "" ∧
    (recognitionOnEnd installedCapturedInput
        (recognitionOnResult [("mundo")]
          (recognitionOnResult [("hola ")]
            (handleMicClick true (initSuccess initialState))))).2 = false := by
  decide

/-- C5 counterexample: on a concrete successful reply with an audio payload,
the update trace sets `isSpeaking` (the playing-audio flag) to true and
invokes the synthesis call while `isLoading` (the waiting-for-reply flag) is
still true — the `finally` block clears `isLoading` only afterwards — so after
the first seven updates both flags are simultaneously true, contradicting the
claimed order `append, waiting := false, then playing := true`. -/
theorem sendMessage_flagOrder_counterexample :
    handleSendMessageTrace (ChatSendResult.success ("ok")) (SynthOutcome.audio ("QUJD"))
        (typeInput ("hola") (initSuccess initialState)) =
      [Event.appendTurn { role := Role.user, content := "hola" },
       Event.setInput (""), Event.setLoading true, Event.invokeSend ("hola"),
       Event.appendTurn { role := Role.model, content := "ok" },
       Event.setSpeaking true, Event.invokeSynth ("ok"),
       Event.startPlayback ("QUJD"), Event.setLoading false] ∧
    (runEvents (typeInput ("hola") (initSuccess initialState))
        ((handleSendMessageTrace (ChatSendResult.success ("ok")) (SynthOutcome.audio ("QUJD"))
          (typeInput ("hola") (initSuccess initialState))).take 7)).isLoading = true ∧
    (runEvents (typeInput ("hola") (initSuccess initialState))
        ((handleSendMessageTrace (ChatSendResult.success ("ok")) (SynthOutcome.audio ("QUJD"))
          (typeInput ("hola") (initSuccess initialState))).take 7)).isSpeaking = true := by
  decide

/-- C5 amended: on a successful reply with an audio payload (refs present),
the updates occur in this order — user turn, input cleared, waiting set,
chat-send invoked, assistant turn appended, playing-audio set true, synthesis
invoked, playback started, and only then waiting cleared; consequently the
waiting and playing flags are simultaneously true during the reply-to-playback
transition, and the waiting flag is false once the handler completes. -/
theorem sendMessage_flagOrder_amended (s : CardState) (t p : String)
    (h1 : ¬ jsTrim s.userInput = "") (h2 : s.isLoading = false) (h3 : s.chatReady = true)
    (h4 : s.isSpeaking = false) (h5 : s.refsReady = true) :
    handleSendMessageTrace (ChatSendResult.success t) (SynthOutcome.audio p) s =
      [Event.appendTurn { role := Role.user, content := s.userInput },
       Event.setInput (""), Event.setLoading true, Event.invokeSend s.userInput,
       Event.appendTurn { role := Role.model, content := t },
       Event.setSpeaking true, Event.invokeSynth t,
       Event.startPlayback p, Event.setLoading false] ∧
    (runEvents s ((handleSendMessageTrace (ChatSendResult.success t) (SynthOutcome.audio p) s).take 7)).isLoading = true ∧
    (runEvents s ((handleSendMessageTrace (ChatSendResult.success t) (SynthOutcome.audio p) s).take 7)).isSpeaking = true ∧
    (handleSendMessage (ChatSendResult.success t) (SynthOutcome.audio p) s).isLoading = false := by
  have ht : handleSendMessageTrace (ChatSendResult.success t) (SynthOutcome.audio p) s =
      [Event.appendTurn { role := Role.user, content := s.userInput },
       Event.setInput (""), Event.setLoading true, Event.invokeSend s.userInput,
       Event.appendTurn { role := Role.model, content := t },
       Event.setSpeaking true, Event.invokeSynth t,
       Event.startPlayback p, Event.setLoading false] := by
    unfold handleSendMessageTrace playAudioResponseTrace
    rw [if_neg (by simp [h1, h2, h3, h4])]
    simp [h5]
  refine ⟨ht, ?_, ?_, ?_⟩ <;>
    simp [handleSendMessage, ht, runEvents, applyEvent]

/-- Witness for the amended C5 at a concrete post-initialization state. -/
theorem sendMessage_flagOrder_amended_witness :
    (runEvents (typeInput ("hola") (initSuccess initialState))
        ((handleSendMessageTrace (ChatSendResult.success ("ok")) (SynthOutcome.audio ("QQ=="))
          (typeInput ("hola") (initSuccess initialState))).take 7)).isLoading = true ∧
    (runEvents (typeInput ("hola") (initSuccess initialState))
        ((handleSendMessageTrace (ChatSendResult.success ("ok")) (SynthOutcome.audio ("QQ=="))
          (typeInput ("hola") (initSuccess initialState))).take 7)).isSpeaking = true ∧
    (handleSendMessage (ChatSendResult.success ("ok")) (SynthOutcome.audio ("QQ=="))
        (typeInput ("hola") (initSuccess initialState))).isLoading = false :=
  (sendMessage_flagOrder_amended (typeInput ("hola") (initSuccess initialState))
    ("ok") ("QQ==") (by decide) rfl rfl rfl rfl).2

/-- C8: when the synthesis call throws or returns no audio payload, the
playback routine ends with the playing-audio flag false, starts no playback,
and leaves the transcript (and the rest of the state) untouched, so the
assistant's text stays shown. -/
theorem playAudio_failure_spec (s : CardState) (text : String) (synth : SynthOutcome)
    (h1 : s.refsReady = true)
    (h2 : synth = SynthOutcome.failure ∨ synth = SynthOutcome.empty) :
    (runEvents s (playAudioResponseTrace text synth s)).isSpeaking = false ∧
    (runEvents s (playAudioResponseTrace text synth s)).chatHistory = s.chatHistory ∧
    (runEvents s (playAudioResponseTrace text synth s)).userInput = s.userInput ∧
    (runEvents s (playAudioResponseTrace text synth s)).isLoading = s.isLoading ∧
    (playAudioResponseTrace text synth s).countP Event.isStartPlayback = 0 := by
  rcases h2 with h2 | h2 <;> subst h2 <;>
    simp [playAudioResponseTrace, h1, runEvents, applyEvent, Event.isStartPlayback,
      List.countP_cons]

/-- Witness for C8 at a concrete post-initialization state. -/
theorem playAudio_failure_spec_witness :
    (runEvents (initSuccess initialState)
        (playAudioResponseTrace ("hola") SynthOutcome.failure (initSuccess initialState))).isSpeaking = false ∧
    (runEvents (initSuccess initialState)
        (playAudioResponseTrace ("hola") SynthOutcome.failure (initSuccess initialState))).chatHistory =
      (initSuccess initialState).chatHistory ∧
    (runEvents (initSuccess initialState)
        (playAudioResponseTrace ("hola") SynthOutcome.failure (initSuccess initialState))).userInput =
      (initSuccess initialState).userInput ∧
    (runEvents (initSuccess initialState)
        (playAudioResponseTrace ("hola") SynthOutcome.failure (initSuccess initialState))).isLoading =
      (initSuccess initialState).isLoading ∧
    (playAudioResponseTrace ("hola") SynthOutcome.failure (initSuccess initialState)).countP
      Event.isStartPlayback = 0 :=
  playAudio_failure_spec (initSuccess initialState) ("hola") SynthOutcome.failure rfl (Or.inl rfl)

/-- Filtering the static tab list for a member id keeps exactly that id. -/
theorem filter_tabIds_self (a : String) (ha : a ∈ tabIds) :
    tabIds.filter (fun id => a == id) = [a] := by
  fin_cases ha <;> decide

/-- A fold of tab selections over valid ids keeps the active tab valid and
changes no other field. -/
theorem foldSelect_spec (ids : List String) (s : CardState)
    (hids : ∀ i ∈ ids, i ∈ tabIds) (hs : s.activeTab ∈ tabIds) :
    (ids.foldl (fun t i => selectTab i t) s).activeTab ∈ tabIds ∧
    (ids.foldl (fun t i => selectTab i t) s).chatHistory = s.chatHistory ∧
    (ids.foldl (fun t i => selectTab i t) s).userInput = s.userInput ∧
    (ids.foldl (fun t i => selectTab i t) s).isLoading = s.isLoading ∧
    (ids.foldl (fun t i => selectTab i t) s).isSpeaking = s.isSpeaking ∧
    (ids.foldl (fun t i => selectTab i t) s).isListening = s.isListening ∧
    (ids.foldl (fun t i => selectTab i t) s).chatReady = s.chatReady := by
  induction ids generalizing s with
  | nil => exact ⟨hs, rfl, rfl, rfl, rfl, rfl, rfl⟩
  | cons i ids ih =>
      have h1 : i ∈ tabIds := hids i (by simp)
      have h2 := ih (selectTab i s) (fun j hj => hids j (by simp [hj]))
        (by simpa [selectTab] using h1)
      simpa [selectTab] using h2

/-- C7: the default active tab is the first tab, `implications`; after any
sequence of selections among the three valid ids the active tab is one of the
three, exactly that tab's content pane is rendered (the other tabs render
nothing), and the transcript and every flag are unchanged by tab selection. -/
theorem tabSelection_spec :
    initialState.activeTab = "implications" ∧
    tabIds.head? = some ("implications") ∧
    ∀ (s : CardState) (ids : List String), (∀ i ∈ ids, i ∈ tabIds) → s.activeTab ∈ tabIds →
      ((ids.foldl (fun t i => selectTab i t) s).activeTab ∈ tabIds ∧
       renderedTabs (ids.foldl (fun t i => selectTab i t) s) =
         [(ids.foldl (fun t i => selectTab i t) s).activeTab] ∧
       (renderedTabs (ids.foldl (fun t i => selectTab i t) s)).length = 1 ∧
       (ids.foldl (fun t i => selectTab i t) s).chatHistory = s.chatHistory ∧
       (ids.foldl (fun t i => selectTab i t) s).userInput = s.userInput ∧
       (ids.foldl (fun t i => selectTab i t) s).isLoading = s.isLoading ∧
       (ids.foldl (fun t i => selectTab i t) s).isSpeaking = s.isSpeaking ∧
       (ids.foldl (fun t i => selectTab i t) s).isListening = s.isListening ∧
       (ids.foldl (fun t i => selectTab i t) s).chatReady = s.chatReady) := by
  refine ⟨rfl, rfl, ?_⟩
  intro s ids hids hs
  obtain ⟨h1, h2, h3, h4, h5, h6, h7⟩ := foldSelect_spec ids s hids hs
  have hrt : renderedTabs (ids.foldl (fun t i => selectTab i t) s) =
      [(ids.foldl (fun t i => selectTab i t) s).activeTab] := by
    unfold renderedTabs paneRendered
    exact filter_tabIds_self _ h1
  exact ⟨h1, hrt, by rw [hrt]; rfl, h2, h3, h4, h5, h6, h7⟩

/-- Witness for C7: selecting `chat` then `implications` from the initial
state. -/
theorem tabSelection_spec_witness :
    ((["chat", "implications"].foldl (fun t i => selectTab i t) initialState).activeTab ∈ tabIds ∧
     renderedTabs (["chat", "implications"].foldl (fun t i => selectTab i t) initialState) =
       [(["chat", "implications"].foldl (fun t i => selectTab i t) initialState).activeTab] ∧
     (renderedTabs (["chat", "implications"].foldl (fun t i => selectTab i t) initialState)).length = 1 ∧
     (["chat", "implications"].foldl (fun t i => selectTab i t) initialState).chatHistory =
       initialState.chatHistory ∧
     (["chat", "implications"].foldl (fun t i => selectTab i t) initialState).userInput =
       initialState.userInput ∧
     (["chat", "implications"].foldl (fun t i => selectTab i t) initialState).isLoading =
       initialState.isLoading ∧
     (["chat", "implications"].foldl (fun t i => selectTab i t) initialState).isSpeaking =
       initialState.isSpeaking ∧
     (["chat", "implications"].foldl (fun t i => selectTab i t) initialState).isListening =
       initialState.isListening ∧
     (["chat", "implications"].foldl (fun t i => selectTab i t) initialState).chatReady =
       initialState.chatReady) :=
  tabSelection_spec.2.2 initialState (["chat", "implications"]) (by decide) (by decide)

/-- Running any event trace only ever appends to the transcript. -/
theorem runEvents_history_extends (es : List Event) (s : CardState) :
    ∃ t, (runEvents s es).chatHistory = s.chatHistory ++ t := by
  induction es generalizing s with
  | nil => exact ⟨[], by simp [runEvents]⟩
  | cons e es ih =>
      obtain ⟨t, ht⟩ := ih (applyEvent s e)
      cases e with
      | appendTurn m => exact ⟨m :: t, by simpa [runEvents, applyEvent] using ht⟩
      | setInput v => exact ⟨t, by simpa [runEvents, applyEvent] using ht⟩
      | setLoading b => exact ⟨t, by simpa [runEvents, applyEvent] using ht⟩
      | setSpeaking b => exact ⟨t, by simpa [runEvents, applyEvent] using ht⟩
      | setListening b => exact ⟨t, by simpa [runEvents, applyEvent] using ht⟩
      | invokeSend m => exact ⟨t, by simpa [runEvents, applyEvent] using ht⟩
      | invokeSynth m => exact ⟨t, by simpa [runEvents, applyEvent] using ht⟩
      | startPlayback p => exact ⟨t, by simpa [runEvents, applyEvent] using ht⟩

/-- Every single interface or platform step only ever appends to the
transcript. -/
theorem step_history_extends {s s' : CardState} (h : Step s s') :
    ∃ t, s'.chatHistory = s.chatHistory ++ t := by
  cases h with
  | chatSend send synth => exact runEvents_history_extends _ s
  | tabClick id hid => exact ⟨[], by simp [selectTab]⟩
  | micClick avail =>
      refine ⟨[], ?_⟩
      unfold handleMicClick
      split
      · simp
      · split <;> simp
  | speechResult segs =>
      refine ⟨[], ?_⟩
      unfold recognitionOnResult
      split <;> simp
  | speechEnd c => exact ⟨[], by simp [recognitionOnEnd]⟩
  | playbackDone => exact ⟨[], by simp [playbackEnded]⟩
  | typing v => exact ⟨[], by simp [typeInput]⟩

/-- The head of a nonempty list survives appending. -/
theorem head_after_append (l t : List ChatMessage) (m : ChatMessage)
    (h : l.head? = some m) : (l ++ t).head? = some m := by
  cases l with
  | nil => simp at h
  | cons a l => simpa using h

/-- C9: after a successful initialization the transcript is exactly the one
greeting turn; after a failed initialization it is exactly the one
system-error turn; and in every reachable state the first transcript entry is
still that initial turn — the transcript is never empty. -/
theorem transcript_head_invariant :
    (initSuccess initialState).chatHistory = [greetingMessage] ∧
    (initFailure initialState).chatHistory = [initErrorMessage] ∧
    ∀ s : CardState, Reachable s →
      s.chatHistory.head? = some greetingMessage ∨
        s.chatHistory.head? = some initErrorMessage := by
  refine ⟨rfl, rfl, ?_⟩
  intro s hs
  induction hs with
  | initOk => exact Or.inl rfl
  | initFail => exact Or.inr rfl
  | step hr hstep ih =>
      obtain ⟨t, ht⟩ := step_history_extends hstep
      rcases ih with h | h
      · exact Or.inl (by rw [ht]; exact head_after_append _ _ _ h)
      · exact Or.inr (by rw [ht]; exact head_after_append _ _ _ h)

/-- Witness for C9 at the state reached by a successful initialization. -/
theorem transcript_head_invariant_witness :
    (initSuccess initialState).chatHistory.head? = some greetingMessage ∨
      (initSuccess initialState).chatHistory.head? = some initErrorMessage :=
  transcript_head_invariant.2.2 (initSuccess initialState) Reachable.initOk

/-- Looking up the alphabet character of a 6-bit value returns its index. -/
theorem b64Index_b64Char : ∀ v : Fin 64, b64Index (b64Char v.val) = some v.val := by
  decide

/-- An alphabet character is never the padding character. -/
theorem b64Char_ne_pad : ∀ v : Fin 64, b64Char v.val ≠ '=' := by
  decide

/-- Bound-carrying version of `b64Index_b64Char`. -/
theorem b64Index_b64Char' (v : Nat) (h : v < 64) : b64Index (b64Char v) = some v :=
  b64Index_b64Char ⟨v, h⟩

/-- Bound-carrying version of `b64Char_ne_pad`. -/
theorem b64Char_ne_pad' (v : Nat) (h : v < 64) : b64Char v ≠ '=' :=
  b64Char_ne_pad ⟨v, h⟩

/-- Helper spelling of the decoder's 4-character step with the index lookups
as explicit binds, convenient for rewriting. -/
theorem b64DecodeChars_full (c1 c2 c3 c4 : Char) (rest : List Char)
    (h3 : c3 ≠ '=') (h4 : c4 ≠ '=') :
    b64DecodeChars (c1 :: c2 :: c3 :: c4 :: rest) =
      (b64Index c1).bind (fun a => (b64Index c2).bind (fun b =>
        (b64Index c3).bind (fun c => (b64Index c4).bind (fun d =>
          (b64DecodeChars rest).map (fun tail =>
            (a * 4 + b / 16) :: (b % 16 * 16 + c / 4) :: (c % 4 * 64 + d) :: tail))))) := by
  rw [b64DecodeChars]
  rw [if_neg (fun hc => absurd hc.1 h3), if_neg (fun hc => absurd hc.1 h4)]
  cases b64Index c1 <;> cases b64Index c2 <;> cases b64Index c3 <;> cases b64Index c4 <;>
    cases hr : b64DecodeChars rest <;> simp [hr]

/-- Decoding inverts the reference encoder on byte sequences. -/
theorem b64_roundtrip (bs : List Nat) (hb : ∀ b ∈ bs, b < 256) :
    b64DecodeChars (base64Encode bs) = some bs := by
  induction bs using base64Encode.induct with
  | case1 x y z rest ih =>
      have hx : x < 256 := hb x (by simp)
      have hy : y < 256 := hb y (by simp)
      have hz : z < 256 := hb z (by simp)
      have h1 : x / 4 < 64 := by omega
      have h2 : x % 4 * 16 + y / 16 < 64 := by omega
      have h3 : y % 16 * 4 + z / 64 < 64 := by omega
      have h4 : z % 64 < 64 := by omega
      have hih := ih (fun b hbm => hb b (by simp [hbm]))
      rw [base64Encode]
      rw [b64DecodeChars_full _ _ _ _ _ (b64Char_ne_pad' _ h3) (b64Char_ne_pad' _ h4)]
      rw [b64Index_b64Char' _ h1, b64Index_b64Char' _ h2, b64Index_b64Char' _ h3,
        b64Index_b64Char' _ h4, hih]
      simp only [Option.some_bind, Option.map_some', Option.some.injEq, List.cons.injEq,
        and_true]
      refine ⟨?_, ?_, ?_⟩ <;> omega
  | case2 x y =>
      have hx : x < 256 := hb x (by simp)
      have hy : y < 256 := hb y (by simp)
      have h1 : x / 4 < 64 := by omega
      have h2 : x % 4 * 16 + y / 16 < 64 := by omega
      have h3 : y % 16 * 4 < 64 := by omega
      rw [base64Encode, b64DecodeChars]
      rw [if_neg (fun hc => absurd hc.1 (b64Char_ne_pad' _ h3))]
      rw [if_pos ⟨rfl, rfl⟩]
      rw [b64Index_b64Char' _ h1, b64Index_b64Char' _ h2, b64Index_b64Char' _ h3]
      simp only [Option.some.injEq, List.cons.injEq, and_true]
      omega
  | case3 x =>
      have hx : x < 256 := hb x (by simp)
      have h1 : x / 4 < 64 := by omega
      have h2 : x % 4 * 16 < 64 := by omega
      rw [base64Encode, b64DecodeChars]
      rw [if_pos ⟨rfl, rfl, rfl⟩]
      rw [b64Index_b64Char' _ h1, b64Index_b64Char' _ h2]
      simp only [Option.some.injEq, List.cons.injEq, and_true]
      omega
  | case4 => rfl

/-- The 16-bit view holds one value per byte pair. -/
theorem bytesToInt16_length (bs : List Nat) : (bytesToInt16 bs).length = bs.length / 2 := by
  induction bs using bytesToInt16.induct with
  | case1 lo hi rest ih => simp [bytesToInt16, ih]; omega
  | case2 bs h =>
      match bs, h with
      | [], _ => simp [bytesToInt16]
      | [x], _ => simp [bytesToInt16]
      | a :: b :: r, h => exact absurd rfl (h a b r)

/-- Entry `i` of the 16-bit view combines bytes `2*i` and `2*i+1`, little
endian. -/
theorem bytesToInt16_getD :
    ∀ (bs : List Nat) (i : Nat), 2 * i + 1 < bs.length →
      (bytesToInt16 bs).getD i 0 = toInt16 (bs.getD (2 * i) 0) (bs.getD (2 * i + 1) 0) := by
  intro bs
  induction bs using bytesToInt16.induct with
  | case1 lo hi rest ih =>
      intro i h
      cases i with
      | zero => rfl
      | succ i =>
          have h' : 2 * i + 1 < rest.length := by
            simp only [List.length_cons] at h; omega
          rw [show 2 * (i + 1) = 2 * i + 1 + 1 by omega]
          simp only [bytesToInt16, List.getD_cons_succ]
          exact ih i h'
  | case2 bs hne =>
      intro i h
      match bs, h with
      | [], h => simp at h
      | [x], h => simp only [List.length_singleton] at h; omega
      | a :: b :: r, h => exact absurd rfl (hne a b r)

/-- Each byte read from a byte list with default 0 is below 256. -/
theorem getD_lt256 (bs : List Nat) (hb : ∀ b ∈ bs, b < 256) (j : Nat) :
    bs.getD j 0 < 256 := by
  by_cases hj : j < bs.length
  · rw [List.getD_eq_getElem bs 0 hj]
    exact hb _ (List.getElem_mem hj)
  · rw [List.getD_eq_default]
    · norm_num
    · omega

/-- A signed 16-bit value built from two bytes lies in the 16-bit range. -/
theorem toInt16_bounds (lo hi : Nat) (hlo : lo < 256) (hhi : hi < 256) :
    -32768 ≤ toInt16 lo hi ∧ toInt16 lo hi ≤ 32767 := by
  unfold toInt16
  split <;> omega

/-- Normalizing a 16-bit value by 32768 lands in [-1, 1). -/
theorem sampleBound (v : Int) (h1 : -32768 ≤ v) (h2 : v ≤ 32767) :
    -1 ≤ (v : ℚ) / 32768 ∧ (v : ℚ) / 32768 < 1 := by
  have hpos : (0 : ℚ) < 32768 := by norm_num
  constructor
  · rw [le_div_iff₀ hpos]
    have hv : (-32768 : ℚ) ≤ (v : ℚ) := by exact_mod_cast h1
    linarith
  · rw [div_lt_one hpos]
    have hv : (v : ℚ) ≤ 32767 := by exact_mod_cast h2
    linarith

/-- C6: for every byte payload of `N` 16-bit samples, decoding its base64
encoding returns exactly those bytes, and the audio decode of the payload at
one channel yields exactly the reference de-interleave — `N` samples, sample
`i` being the `i`-th signed 16-bit little-endian value divided by 32768 —
with every sample in [-1, 1). -/
theorem decodeAudioData_spec (bytes : List Nat) (N : Nat)
    (hb : ∀ b ∈ bytes, b < 256) (hN : bytes.length = 2 * N) :
    decode (String.mk (base64Encode bytes)) = some bytes ∧
    decodeAudioData bytes 1 = some [referenceSamples bytes] ∧
    (referenceSamples bytes).length = N ∧
    ∀ q ∈ referenceSamples bytes, -1 ≤ q ∧ q < 1 := by
  refine ⟨b64_roundtrip bytes hb, ?_, ?_, ?_⟩
  · unfold decodeAudioData
    rw [if_pos (by omega)]
    rw [show List.range 1 = [0] from rfl]
    simp only [List.map_cons, List.map_nil]
    refine congrArg some ?_
    refine congrArg (fun l => [l]) ?_
    rw [Nat.div_one, bytesToInt16_length]
    unfold referenceSamples
    refine List.map_congr_left ?_
    intro i hi
    have hi' : i < bytes.length / 2 := List.mem_range.mp hi
    have hidx : 2 * i + 1 < bytes.length := by omega
    rw [show i * 1 + 0 = i by omega]
    rw [bytesToInt16_getD bytes i hidx]
  · unfold referenceSamples
    simp only [List.length_map, List.length_range]
    omega
  · intro q hq
    unfold referenceSamples at hq
    simp only [List.mem_map, List.mem_range] at hq
    obtain ⟨i, hi, rfl⟩ := hq
    have hlo := getD_lt256 bytes hb (2 * i)
    have hhi := getD_lt256 bytes hb (2 * i + 1)
    obtain ⟨hb1, hb2⟩ := toInt16_bounds _ _ hlo hhi
    exact sampleBound _ hb1 hb2

/-- Witness for C6 on the two-sample payload 0x1234, 0xFFFF. -/
theorem decodeAudioData_spec_witness :
    decode (String.mk (base64Encode [52, 18, 255, 255])) = some [52, 18, 255, 255] ∧
    decodeAudioData [52, 18, 255, 255] 1 = some [referenceSamples [52, 18, 255, 255]] ∧
    (referenceSamples [52, 18, 255, 255]).length = 2 :=
  ⟨(decodeAudioData_spec [52, 18, 255, 255] 2 (by decide) rfl).1,
   (decodeAudioData_spec [52, 18, 255, 255] 2 (by decide) rfl).2.1,
   (decodeAudioData_spec [52, 18, 255, 255] 2 (by decide) rfl).2.2.1⟩

end InteractiveCard
